import Mathlib

/-!
Verification of the kernsweep obsolescence-analysis core
(`src/kernsweep/analyzer.py`): kernel version parsing and ordering,
base-version extraction, the analyze pipeline, header matching, and the
removal-safety gate.  Python strings are modelled as Lean `String`
(operated on through their `List Char` data), Python `int` as `Int`/`Nat`,
Python exceptions as `Except`.
-/

namespace Kernsweep

/-- Python `str.isalnum()`: non-empty and every character alphanumeric. -/
def pyIsAlnum (l : List Char) : Bool :=
  !l.isEmpty && l.all Char.isAlphanum

/-- Python `str.islower()`: at least one cased character and every cased
character lowercase (ASCII model: cased = alphabetic). -/
def pyIsLowerStr (l : List Char) : Bool :=
  l.any Char.isAlpha && l.all (fun c => !c.isAlpha || c.isLower)

/-- The regex test `re.match(r'^\d+\.', s)`: a non-empty run of leading
digits immediately followed by a dot. -/
def startsWithDigitDot (l : List Char) : Bool :=
  !(l.takeWhile Char.isDigit).isEmpty &&
    (match l.dropWhile Char.isDigit with
     | '.' :: _ => true
     | _ => false)

/-- Python `s.rsplit('-', 1)` restricted to the dash separator: `some
(before, after)` splitting at the LAST dash when one exists, else `none`
(Python then returns the one-element list `[s]`). -/
def rsplit1 : List Char → Option (List Char × List Char)
  | [] => none
  | c :: rest =>
    match rsplit1 rest with
    | some (p, s) => some (c :: p, s)
    | none => if c = '-' then some ([], rest) else none

/-- `extract_base_version` from `analyzer.py` (lines 15-44): split on the
last dash; the trailing segment is a flavor when, after removing
underscores, it is non-empty alphanumeric and it does not start with
digits followed by a dot; otherwise the whole string is the base. -/
def extract_base_version (version : String) : String × String :=
  match rsplit1 version.data with
  | some (base, flavor) =>
    if pyIsAlnum (flavor.filter (fun c => c ≠ '_')) && !startsWithDigitDot flavor then
      (String.mk base, String.mk flavor)
    else
      (version, "")
  | none => (version, "")

/-- Decimal digits to a natural number, most significant first. -/
def digitsToNat (l : List Char) : Nat :=
  l.foldl (fun n c => n * 10 + (c.toNat - '0'.toNat)) 0

/-- The regex `^(\d+)\.(\d+)\.(\d+)-(\d+)` of `compare_kernel_versions`:
the four captured integer groups, or `none` when the string does not
match at its start. -/
def parseVersionKey (v : String) : Option (Nat × Nat × Nat × Nat) :=
  let l := v.data
  let d1 := l.takeWhile Char.isDigit
  if d1.isEmpty then none else
  match l.dropWhile Char.isDigit with
  | '.' :: r1 =>
    let d2 := r1.takeWhile Char.isDigit
    if d2.isEmpty then none else
    match r1.dropWhile Char.isDigit with
    | '.' :: r2 =>
      let d3 := r2.takeWhile Char.isDigit
      if d3.isEmpty then none else
      match r2.dropWhile Char.isDigit with
      | '-' :: r3 =>
        let d4 := r3.takeWhile Char.isDigit
        if d4.isEmpty then none else
        some (digitsToNat d1, digitsToNat d2, digitsToNat d3, digitsToNat d4)
      | _ => none
    | _ => none
  | _ => none

/-- Python ordinal string comparison (`<`, `>` on `str`): lexicographic by
code point, a proper prefix being smaller. -/
def strOrdCmp : List Char → List Char → Int
  | [], [] => 0
  | [], _ :: _ => -1
  | _ :: _, [] => 1
  | a :: xs, b :: ys =>
    if a.toNat < b.toNat then -1
    else if a.toNat > b.toNat then 1
    else strOrdCmp xs ys

/-- The component-by-component loop of `compare_kernel_versions`
(lines 101-107). -/
def cmp4 : Nat × Nat × Nat × Nat → Nat × Nat × Nat × Nat → Int
  | (a1, b1, c1, d1), (a2, b2, c2, d2) =>
    if a1 < a2 then -1 else if a1 > a2 then 1
    else if b1 < b2 then -1 else if b1 > b2 then 1
    else if c1 < c2 then -1 else if c1 > c2 then 1
    else if d1 < d2 then -1 else if d1 > d2 then 1
    else 0

/-- `compare_kernel_versions` from `analyzer.py` (lines 66-107): numeric
4-tuple comparison when both strings match the grammar, ordinal string
comparison otherwise. -/
def compare_kernel_versions (version1 version2 : String) : Int :=
  match parseVersionKey version1, parseVersionKey version2 with
  | some k1, some k2 => cmp4 k1 k2
  | _, _ => strOrdCmp version1.data version2.data

/-- `KernelInfo` from `detector.py`: one installed kernel record. -/
structure KernelInfo where
  version : String
  package_name : String
  is_running : Bool := false
  is_latest : Bool := false
deriving DecidableEq, Repr

/-- `AnalysisResult` from `analyzer.py` (lines 47-63). -/
structure AnalysisResult where
  running_kernel : String
  latest_kernel : String
  obsolete_kernels : List String
  obsolete_headers : List String
  protected_kernels : List String
deriving DecidableEq, Repr

/-- The two `ValueError` situations `analyze_kernels` can raise: no
running kernel in a non-empty list, or a safety-gate veto carrying the
gate's message. -/
inductive AnalyzeError where
  | runningKernelNotFound
  | unsafeRemoval (msg : String)
deriving DecidableEq, Repr

/-- Python substring test `pat in s`. -/
def hasInfix (pat : List Char) : List Char → Bool
  | [] => pat.isEmpty
  | c :: rest => pat.isPrefixOf (c :: rest) || hasInfix pat rest

/-- `validate_removal_safety` from `analyzer.py` (lines 255-301):
sequential safety checks, first failure wins. -/
def validate_removal_safety (packages_to_remove : List String)
    (running_kernel latest_kernel : String) (all_kernels : List KernelInfo) :
    Bool × String :=
  let running_pkg := "linux-image-" ++ running_kernel
  if running_pkg ∈ packages_to_remove then
    (false, "Safety check failed: Running kernel " ++ running_kernel ++ " is marked for removal")
  else
    let latest_pkg := "linux-image-" ++ latest_kernel
    if latest_pkg ∈ packages_to_remove then
      (false, "Safety check failed: Latest kernel " ++ latest_kernel ++ " is marked for removal")
    else
      let kernel_images_to_remove :=
        packages_to_remove.filter (fun pkg => hasInfix "linux-image-".data pkg.data)
      let remaining_kernels : Int :=
        (all_kernels.length : Int) - (kernel_images_to_remove.length : Int)
      if remaining_kernels < 1 then
        (false, "Safety check failed: No kernels would remain after removal")
      else if kernel_images_to_remove.length > 5 then
        (false, "Safety check warning: Attempting to remove " ++
          toString kernel_images_to_remove.length ++
          " kernels at once. This seems excessive.")
      else
        (true, "")

/-- The latest-kernel fold of `analyze_kernels` (lines 147-150): first
record is the initial candidate, strictly-greater comparison replaces it. -/
def pickLatest (k0 : KernelInfo) (rest : List KernelInfo) : KernelInfo :=
  rest.foldl
    (fun latest kernel =>
      if compare_kernel_versions kernel.version latest.version > 0 then kernel else latest)
    k0

/-- The non-empty branch of `analyze_kernels` once the running record has
been located (lines 146-196): resolve the latest record, collapse it into
the running record when they share a base version, partition by the
protected version/base-version sets, then gate the obsolete list. -/
def analyzeWithRunning (running k0 : KernelInfo) (rest : List KernelInfo) :
    Except AnalyzeError AnalysisResult :=
  let latest0 := pickLatest k0 rest
  let running_base := (extract_base_version running.version).1
  let latest_base := (extract_base_version latest0.version).1
  let latest := if running_base = latest_base then running else latest0
  let protected_versions := [running.version, latest.version]
  let protected_base_versions := [running_base, latest_base]
  let isProt := fun (k : KernelInfo) =>
    protected_versions.contains k.version ||
      protected_base_versions.contains (extract_base_version k.version).1
  let obsolete_kernels :=
    ((k0 :: rest).filter (fun k => !(isProt k))).map KernelInfo.package_name
  let protected_kernels :=
    ((k0 :: rest).filter isProt).map KernelInfo.package_name
  let gate := validate_removal_safety obsolete_kernels running.version latest.version (k0 :: rest)
  if gate.1 then
    .ok { running_kernel := running.version
          latest_kernel := latest.version
          obsolete_kernels := obsolete_kernels
          obsolete_headers := []
          protected_kernels := protected_kernels }
  else
    .error (.unsafeRemoval gate.2)

/-- `analyze_kernels` from `analyzer.py` (lines 110-196). -/
def analyze_kernels (kernels : List KernelInfo) : Except AnalyzeError AnalysisResult :=
  match kernels with
  | [] =>
    .ok { running_kernel := ""
          latest_kernel := ""
          obsolete_kernels := []
          obsolete_headers := []
          protected_kernels := [] }
  | k0 :: rest =>
    match (k0 :: rest).find? (fun k => k.is_running) with
    | none => .error .runningKernelNotFound
    | some running => analyzeWithRunning running k0 rest

/-- Fuel-based core of Python `s.replace(pat, '')` for a non-empty `pat`:
scan left to right, removing each non-overlapping occurrence of `pat`.
Each step consumes at least one character, so fuel `s.length` suffices. -/
def removeAllAux (pat : List Char) : Nat → List Char → List Char
  | _, [] => []
  | 0, s => s
  | fuel + 1, c :: rest =>
    if pat.isPrefixOf (c :: rest) then
      removeAllAux pat fuel (rest.drop (pat.length - 1))
    else
      c :: removeAllAux pat fuel rest

/-- Python `s.replace(pat, '')`. -/
def pyReplaceAll (pat s : String) : String :=
  String.mk (removeAllAux pat.data s.data.length s.data)

/-- Line 239 of `analyzer.py`: `header.replace("linux-headers-", "")`. -/
def headerVersion (header : String) : String :=
  pyReplaceAll "linux-headers-" header

/-- The base-version projection of `match_headers_to_kernels`
(lines 219-234): strip the final dash-separated segment when it is a
lowercase alphanumeric platform identifier, else keep the whole version. -/
def baseProjOne (kver : String) : String :=
  match rsplit1 kver.data with
  | some (p, last_part) =>
    if pyIsAlnum (last_part.filter (fun c => c ≠ '_')) && pyIsLowerStr last_part then
      String.mk p
    else
      kver
  | none => kver

/-- The loop body predicate of `match_headers_to_kernels` (lines 236-250):
is this header package obsolete? -/
def headerObsolete (kernel_versions base_versions : List String) (header : String) : Bool :=
  let version := headerVersion header
  if "-common".data.isSuffixOf version.data then
    let base_version := String.mk (version.data.take (version.data.length - 7))
    !(base_versions.contains base_version)
  else
    !(kernel_versions.contains version)

/-- `match_headers_to_kernels` from `analyzer.py` (lines 199-252): the
append-accumulating loop over the header list. -/
def match_headers_to_kernels (headers : List String) (kernel_versions : List String) :
    List String :=
  let base_versions := kernel_versions.map baseProjOne
  headers.foldl
    (fun obsolete_headers header =>
      if headerObsolete kernel_versions base_versions header then
        obsolete_headers ++ [header]
      else
        obsolete_headers)
    []

/-- Modelled from the spec wording of claim C4 (§4.3 HeaderMatcher): a
header token not ending in `-common` is obsolete exactly when it does not
equal some protected version; a `-common` token is obsolete exactly when,
after stripping the suffix, it is absent from the base-version projection
of the protected set. -/
def headerObsoleteSpec (kernel_versions : List String) (header : String) : Bool :=
  let version := headerVersion header
  if "-common".data.isSuffixOf version.data then
    !((kernel_versions.map baseProjOne).contains
        (String.mk (version.data.take (version.data.length - 7))))
  else
    !(kernel_versions.contains version)

/-- Modelled from the spec wording of claim C9, read literally: the
trailing segment is a flavor when every character is alphanumeric or an
underscore and the segment does not start with digits followed by a dot. -/
def extractBaseVersionSpecClaim (version : String) : String × String :=
  match rsplit1 version.data with
  | some (base, flavor) =>
    if flavor.all (fun c => c.isAlphanum || c == '_') && !startsWithDigitDot flavor then
      (String.mk base, String.mk flavor)
    else
      (version, "")
  | none => (version, "")

/-- The amended C9 condition: as `extractBaseVersionSpecClaim`, but the
trailing segment must also contain at least one alphanumeric character
(so an empty or all-underscore segment is not a flavor). -/
def extractBaseVersionSpecAmended (version : String) : String × String :=
  match rsplit1 version.data with
  | some (base, flavor) =>
    if (flavor.all (fun c => c.isAlphanum || c == '_') && flavor.any Char.isAlphanum)
        && !startsWithDigitDot flavor then
      (String.mk base, String.mk flavor)
    else
      (version, "")
  | none => (version, "")

/-- `sub` occurs as a contiguous substring of `s` (Prop form used to state
that an error message contains a token). -/
def strContains (s sub : String) : Prop :=
  ∃ p q, s.data = p ++ sub.data ++ q

/-! ### Helper lemmas -/

/-- If the safety gate passes, neither the conventional running-kernel
image package nor the latest one is in the removal list: these are the
gate's first two checks. -/
lemma validate_fst_true_not_mem (ps : List String) (r l : String) (ks : List KernelInfo)
    (h : (validate_removal_safety ps r l ks).1 = true) :
    ("linux-image-" ++ r) ∉ ps ∧ ("linux-image-" ++ l) ∉ ps := by
  by_cases h1 : ("linux-image-" ++ r) ∈ ps
  · simp [validate_removal_safety, h1] at h
  · by_cases h2 : ("linux-image-" ++ l) ∈ ps
    · simp [validate_removal_safety, h1, h2] at h
    · exact ⟨h1, h2⟩

/-- A fold whose step keeps the accumulator or picks the current element
ends at the initial accumulator or at a list element. -/
lemma foldl_choice_mem {α : Type} (f : α → α → α)
    (hf : ∀ acc k, f acc k = acc ∨ f acc k = k) :
    ∀ (l : List α) (acc : α), l.foldl f acc = acc ∨ l.foldl f acc ∈ l := by
  intro l
  induction l with
  | nil => intro acc; exact Or.inl rfl
  | cons k t ih =>
    intro acc
    rw [List.foldl_cons]
    rcases ih (f acc k) with h | h
    · rw [h]
      rcases hf acc k with h2 | h2
      · exact Or.inl h2
      · exact Or.inr (by rw [h2]; exact List.mem_cons_self k t)
    · exact Or.inr (List.mem_cons_of_mem _ h)

/-- The latest-kernel fold returns a record of the input list. -/
lemma pickLatest_mem (k0 : KernelInfo) (rest : List KernelInfo) :
    pickLatest k0 rest ∈ k0 :: rest := by
  unfold pickLatest
  rcases foldl_choice_mem
      (fun latest kernel =>
        if compare_kernel_versions kernel.version latest.version > 0 then kernel else latest)
      (fun acc k => by
        by_cases h : compare_kernel_versions k.version acc.version > 0
        · exact Or.inr (if_pos h)
        · exact Or.inl (if_neg h))
      rest k0 with h | h
  · rw [h]; exact List.mem_cons_self _ _
  · exact List.mem_cons_of_mem _ h

/-- Fields of a successful `analyzeWithRunning` run: the running field is
the located running record's version, the latest field is the running or
the folded-latest record's version, and the gate passed on the obsolete
list. -/
lemma analyzeWithRunning_ok (running k0 : KernelInfo) (rest : List KernelInfo)
    (res : AnalysisResult) (h : analyzeWithRunning running k0 rest = .ok res) :
    res.running_kernel = running.version ∧
    (res.latest_kernel = running.version ∨ res.latest_kernel = (pickLatest k0 rest).version) ∧
    (validate_removal_safety res.obsolete_kernels running.version res.latest_kernel
        (k0 :: rest)).1 = true := by
  simp only [analyzeWithRunning] at h
  split at h
  case isTrue hb =>
    split at h
    case isTrue hg =>
      rw [Except.ok.injEq] at h
      subst h
      exact ⟨rfl, Or.inl rfl, hg⟩
    case isFalse hg => exact absurd h (by simp)
  case isFalse hb =>
    split at h
    case isTrue hg =>
      rw [Except.ok.injEq] at h
      subst h
      exact ⟨rfl, Or.inr rfl, hg⟩
    case isFalse hg => exact absurd h (by simp)

/-- A list is a prefix of itself followed by anything. -/
lemma isPrefixOf_append_self : ∀ (l t : List Char), l.isPrefixOf (l ++ t) = true
  | [], _ => by simp [List.isPrefixOf]
  | c :: cs, t => by simp [List.isPrefixOf, isPrefixOf_append_self cs t]

/-- A non-empty pattern is a substring of itself followed by anything. -/
lemma hasInfix_self_append (pat : List Char) (hne : pat ≠ []) (t : List Char) :
    hasInfix pat (pat ++ t) = true := by
  cases pat with
  | nil => exact absurd rfl hne
  | cons c cs =>
    rw [List.cons_append, hasInfix, ← List.cons_append, isPrefixOf_append_self]
    rfl

/-- A string that starts with the pattern `linux-image-` contains it as a
substring. -/
lemma hasInfix_linux_image (s : String) :
    hasInfix "linux-image-".data ("linux-image-" ++ s).data = true := by
  rw [String.data_append]
  exact hasInfix_self_append _ (by decide) _

/-- Appending on the left preserves substring containment. -/
lemma strContains_append_left (x z y : String) (h : strContains z y) :
    strContains (x ++ z) y := by
  obtain ⟨p, q, hp⟩ := h
  exact ⟨x.data ++ p, q, by simp [hp, List.append_assoc]⟩

/-- A middle component is contained in a three-part concatenation. -/
lemma strContains_of_parts (x y z : String) : strContains (x ++ y ++ z) y :=
  ⟨x.data, z.data, by simp⟩

/-! ### Claim theorems -/

/-- Claim C6: `analyze_kernels` applied to the empty kernel list returns
an `AnalysisResult` whose running and latest kernels are empty strings
and whose obsolete-kernel, obsolete-header, and protected-kernel
sequences are all empty, and does not raise an error. -/
theorem C6_empty_input_all_empty :
    analyze_kernels [] = .ok ⟨"", "", [], [], []⟩ := rfl

/-- Claim C2: on three kernels 5.15.0-82-generic (running),
5.15.0-91-generic, 5.15.0-75-generic, analysis returns latest
5.15.0-91-generic, obsolete exactly the 75 image package, and the other
two packages protected. -/
theorem C2_example_scenario :
    analyze_kernels
      [⟨"5.15.0-82-generic", "linux-image-5.15.0-82-generic", true, false⟩,
       ⟨"5.15.0-91-generic", "linux-image-5.15.0-91-generic", false, false⟩,
       ⟨"5.15.0-75-generic", "linux-image-5.15.0-75-generic", false, false⟩] =
    .ok ⟨"5.15.0-82-generic", "5.15.0-91-generic",
         ["linux-image-5.15.0-75-generic"], [],
         ["linux-image-5.15.0-82-generic", "linux-image-5.15.0-91-generic"]⟩ := rfl

/-- Claim C5: for every non-empty kernel list in which no record is
flagged running, `analyze_kernels` fails with the running-kernel-not-found
error rather than returning a result. -/
theorem C5_no_running_kernel_error (kernels : List KernelInfo)
    (hne : kernels ≠ []) (hno : ∀ k ∈ kernels, k.is_running = false) :
    analyze_kernels kernels = .error .runningKernelNotFound := by
  cases kernels with
  | nil => exact absurd rfl hne
  | cons k0 rest =>
    have hf : (k0 :: rest).find? (fun k => k.is_running) = none := by
      rw [List.find?_eq_none]
      intro x hx
      simp [hno x hx]
    simp [analyze_kernels, hf]

/-- Witness for C5 at a concrete non-empty, no-running-record input. -/
theorem C5_witness :
    analyze_kernels [⟨"5.15.0-82-generic", "linux-image-5.15.0-82-generic", false, false⟩] =
      .error .runningKernelNotFound :=
  C5_no_running_kernel_error _ (by decide) (by decide)

/-- Claim C7: whenever both version strings match the numeric
major.minor.patch-build grammar and their extracted 4-tuples coincide,
`compare_kernel_versions` returns 0 — the trailing flavor/architecture
suffix is ignored. -/
theorem C7_compare_ignores_suffix (v1 v2 : String) (k : Nat × Nat × Nat × Nat)
    (h1 : parseVersionKey v1 = some k) (h2 : parseVersionKey v2 = some k) :
    compare_kernel_versions v1 v2 = 0 := by
  rcases k with ⟨a, b, c, d⟩
  simp [compare_kernel_versions, h1, h2, cmp4]

/-- Witness for C7: generic and lowlatency builds of 5.15.0-82 compare
equal. -/
theorem C7_witness :
    compare_kernel_versions "5.15.0-82-lowlatency" "5.15.0-82-generic" = 0 :=
  C7_compare_ignores_suffix _ _ (5, 15, 0, 82) (by decide) (by decide)

/-- Claim C8: for version strings matching the 4-component grammar,
`compare_kernel_versions` is antisymmetric and reflexive. -/
theorem C8_compare_antisymm_refl (a b : String)
    (ha : (parseVersionKey a).isSome) (hb : (parseVersionKey b).isSome) :
    compare_kernel_versions a b = -compare_kernel_versions b a ∧
    compare_kernel_versions a a = 0 := by
  obtain ⟨ka, hka⟩ := Option.isSome_iff_exists.mp ha
  obtain ⟨kb, hkb⟩ := Option.isSome_iff_exists.mp hb
  constructor
  · rcases ka with ⟨a1, b1, c1, d1⟩
    rcases kb with ⟨a2, b2, c2, d2⟩
    simp only [compare_kernel_versions, hka, hkb, cmp4]
    split_ifs <;> omega
  · rcases ka with ⟨a1, b1, c1, d1⟩
    simp [compare_kernel_versions, hka, cmp4]

/-- Witness for C8 at two concrete grammar-matching versions. -/
theorem C8_witness :
    compare_kernel_versions "5.15.0-82-generic" "5.15.0-91-generic" =
      -compare_kernel_versions "5.15.0-91-generic" "5.15.0-82-generic" ∧
    compare_kernel_versions "5.15.0-82-generic" "5.15.0-82-generic" = 0 :=
  C8_compare_antisymm_refl _ _ (by decide) (by decide)

/-- Claim C1: for a valid input (records follow the `linux-image-<version>`
package naming convention, a unique record is flagged running) on which
`analyze_kernels` returns a result, neither the running record's package
name nor the resolved latest record's package name appears in the
obsolete-kernel list; the proof goes only through the safety gate's own
membership checks (`validate_fst_true_not_mem`), not the partition. -/
theorem C1_running_latest_never_obsolete
    (kernels : List KernelInfo) (res : AnalysisResult) (krun : KernelInfo)
    (hconv : ∀ k ∈ kernels, k.package_name = "linux-image-" ++ k.version)
    (hmem : krun ∈ kernels) (hrun : krun.is_running = true)
    (huniq : ∀ k ∈ kernels, k.is_running = true → k = krun)
    (hok : analyze_kernels kernels = .ok res) :
    krun.package_name ∉ res.obsolete_kernels ∧
    ∃ klat, klat ∈ kernels ∧ klat.version = res.latest_kernel ∧
      klat.package_name ∉ res.obsolete_kernels := by
  cases kernels with
  | nil => cases hmem
  | cons k0 rest =>
    cases hf : (k0 :: rest).find? (fun k => k.is_running) with
    | none =>
      rw [List.find?_eq_none] at hf
      exact absurd hrun (by simpa using hf krun hmem)
    | some running =>
      have hok' : analyzeWithRunning running k0 rest = .ok res := by
        simpa [analyze_kernels, hf] using hok
      obtain ⟨hrunf, hlat, hgate⟩ := analyzeWithRunning_ok running k0 rest res hok'
      obtain ⟨hnr, hnl⟩ := validate_fst_true_not_mem _ _ _ _ hgate
      have hreq : running = krun :=
        huniq running (List.mem_of_find?_eq_some hf) (by simpa using List.find?_some hf)
      constructor
      · rw [hconv krun hmem, ← hreq]
        exact hnr
      · rcases hlat with h | h
        · rw [hreq] at h
          refine ⟨krun, hmem, h.symm, ?_⟩
          rw [hconv krun hmem, ← h]
          exact hnl
        · refine ⟨pickLatest k0 rest, pickLatest_mem k0 rest, h.symm, ?_⟩
          rw [hconv _ (pickLatest_mem k0 rest), ← h]
          exact hnl

/-- Witness for C1: a concrete two-kernel system where analysis succeeds
and neither the running nor the latest package is obsolete. -/
theorem C1_witness :
    (⟨"5.15.0-82-generic", "linux-image-5.15.0-82-generic", true, false⟩ :
        KernelInfo).package_name ∉
      (⟨"5.15.0-82-generic", "5.15.0-91-generic",
        ["linux-image-5.15.0-75-generic"], [],
        ["linux-image-5.15.0-82-generic", "linux-image-5.15.0-91-generic"]⟩ :
          AnalysisResult).obsolete_kernels ∧
    ∃ klat,
      klat ∈ ([⟨"5.15.0-82-generic", "linux-image-5.15.0-82-generic", true, false⟩,
               ⟨"5.15.0-91-generic", "linux-image-5.15.0-91-generic", false, false⟩,
               ⟨"5.15.0-75-generic", "linux-image-5.15.0-75-generic", false, false⟩] :
                List KernelInfo) ∧
      klat.version =
        (⟨"5.15.0-82-generic", "5.15.0-91-generic",
          ["linux-image-5.15.0-75-generic"], [],
          ["linux-image-5.15.0-82-generic", "linux-image-5.15.0-91-generic"]⟩ :
            AnalysisResult).latest_kernel ∧
      klat.package_name ∉
        (⟨"5.15.0-82-generic", "5.15.0-91-generic",
          ["linux-image-5.15.0-75-generic"], [],
          ["linux-image-5.15.0-82-generic", "linux-image-5.15.0-91-generic"]⟩ :
            AnalysisResult).obsolete_kernels :=
  C1_running_latest_never_obsolete
    [⟨"5.15.0-82-generic", "linux-image-5.15.0-82-generic", true, false⟩,
     ⟨"5.15.0-91-generic", "linux-image-5.15.0-91-generic", false, false⟩,
     ⟨"5.15.0-75-generic", "linux-image-5.15.0-75-generic", false, false⟩]
    ⟨"5.15.0-82-generic", "5.15.0-91-generic",
     ["linux-image-5.15.0-75-generic"], [],
     ["linux-image-5.15.0-82-generic", "linux-image-5.15.0-91-generic"]⟩
    ⟨"5.15.0-82-generic", "linux-image-5.15.0-82-generic", true, false⟩
    (by decide) (by decide) (by decide) (by decide) rfl

/-- Claim C10: when the kernel list is non-empty and no proposed-removal
entry contains the substring `linux-image-`, the safety gate passes: the
running/latest checks look only for the exact conventional image package
name, and the counting checks count only entries containing
`linux-image-`, so differently named kernel packages (e.g.
`proxmox-kernel-<version>`) pass unexamined. -/
theorem C10_no_image_entries_pass (ps : List String) (r l : String)
    (ks : List KernelInfo) (hne : ks ≠ [])
    (hno : ∀ p ∈ ps, hasInfix "linux-image-".data p.data = false) :
    validate_removal_safety ps r l ks = (true, "") := by
  have hr : ("linux-image-" ++ r) ∉ ps := by
    intro hmemr
    have hfalse := hno _ hmemr
    rw [hasInfix_linux_image] at hfalse
    cases hfalse
  have hl : ("linux-image-" ++ l) ∉ ps := by
    intro hmeml
    have hfalse := hno _ hmeml
    rw [hasInfix_linux_image] at hfalse
    cases hfalse
  have himg : ps.filter (fun pkg => hasInfix "linux-image-".data pkg.data) = [] := by
    rw [List.filter_eq_nil_iff]
    intro p hp
    simp [hno p hp]
  have hlen : (1 : Int) ≤ (ks.length : Int) := by
    have := List.length_pos.mpr hne
    omega
  simp only [validate_removal_safety]
  rw [if_neg hr, if_neg hl, himg]
  simp only [List.length_nil]
  rw [if_neg (by omega), if_neg (by decide)]

/-- Witness for C10: removing a Proxmox-named package of the running
kernel version passes the gate. -/
theorem C10_witness :
    validate_removal_safety ["proxmox-kernel-5.15.0-82-generic"]
      "5.15.0-82-generic" "5.15.0-82-generic"
      [⟨"5.15.0-82-generic", "proxmox-kernel-5.15.0-82-generic", true, false⟩] =
    (true, "") :=
  C10_no_image_entries_pass _ _ _ _ (by decide) (by decide)

/-- Counterexample to claim C3 as stated: a proposal with 6 kernel-image
entries against a single-kernel system fails the earlier
no-kernels-would-remain check, whose reason contains neither the count
nor the word "excessive". -/
theorem C3_counterexample :
    5 < ((["linux-image-a1", "linux-image-a2", "linux-image-a3",
           "linux-image-a4", "linux-image-a5", "linux-image-a6"] :
            List String).filter
          (fun pkg => hasInfix "linux-image-".data pkg.data)).length ∧
    (validate_removal_safety
        ["linux-image-a1", "linux-image-a2", "linux-image-a3",
         "linux-image-a4", "linux-image-a5", "linux-image-a6"]
        "9.9.9-9-generic" "8.8.8-8-generic"
        [⟨"1.1.1-1-generic", "linux-image-1.1.1-1-generic", true, false⟩]).2 =
      "Safety check failed: No kernels would remain after removal" ∧
    hasInfix "excessive".data
      ((validate_removal_safety
          ["linux-image-a1", "linux-image-a2", "linux-image-a3",
           "linux-image-a4", "linux-image-a5", "linux-image-a6"]
          "9.9.9-9-generic" "8.8.8-8-generic"
          [⟨"1.1.1-1-generic", "linux-image-1.1.1-1-generic", true, false⟩]).2).data = false ∧
    hasInfix "6".data
      ((validate_removal_safety
          ["linux-image-a1", "linux-image-a2", "linux-image-a3",
           "linux-image-a4", "linux-image-a5", "linux-image-a6"]
          "9.9.9-9-generic" "8.8.8-8-generic"
          [⟨"1.1.1-1-generic", "linux-image-1.1.1-1-generic", true, false⟩]).2).data = false := by
  decide

/-- Claim C3 (amended): a proposal with more than 5 kernel-image entries
always fails validation; when additionally neither the conventional
running- nor latest-kernel image package is among the removals and at
least one kernel would remain, the failure reason names the exact count
and contains the word "excessive". -/
theorem C3_excessive_bulk_removal (ps : List String) (r l : String)
    (ks : List KernelInfo)
    (hcount : 5 < (ps.filter (fun pkg => hasInfix "linux-image-".data pkg.data)).length) :
    (validate_removal_safety ps r l ks).1 = false ∧
    (("linux-image-" ++ r) ∉ ps → ("linux-image-" ++ l) ∉ ps →
      (1 : Int) ≤ (ks.length : Int) -
        ((ps.filter (fun pkg => hasInfix "linux-image-".data pkg.data)).length : Int) →
      (validate_removal_safety ps r l ks).2 =
        "Safety check warning: Attempting to remove " ++
          toString (ps.filter (fun pkg => hasInfix "linux-image-".data pkg.data)).length ++
          " kernels at once. This seems excessive." ∧
      strContains (validate_removal_safety ps r l ks).2
        (toString (ps.filter (fun pkg => hasInfix "linux-image-".data pkg.data)).length) ∧
      strContains (validate_removal_safety ps r l ks).2 "excessive") := by
  by_cases h1 : ("linux-image-" ++ r) ∈ ps
  · exact ⟨by simp [validate_removal_safety, h1], fun hn => absurd h1 hn⟩
  by_cases h2 : ("linux-image-" ++ l) ∈ ps
  · exact ⟨by simp [validate_removal_safety, h1, h2], fun _ hn => absurd h2 hn⟩
  by_cases h3 : (ks.length : Int) -
      ((ps.filter (fun pkg => hasInfix "linux-image-".data pkg.data)).length : Int) < 1
  · exact ⟨by simp [validate_removal_safety, h1, h2, h3], fun _ _ hn => absurd h3 (by omega)⟩
  have hval : validate_removal_safety ps r l ks =
      (false, "Safety check warning: Attempting to remove " ++
        toString (ps.filter (fun pkg => hasInfix "linux-image-".data pkg.data)).length ++
        " kernels at once. This seems excessive.") := by
    simp [validate_removal_safety, h1, h2, h3, hcount]
  rw [hval]
  refine ⟨rfl, fun _ _ _ => ⟨rfl, ?_, ?_⟩⟩
  · exact strContains_of_parts _ _ _
  · exact strContains_append_left _ _ _
      ⟨" kernels at once. This seems ".data, ".".data, by decide⟩

/-- Ten distinct installed kernels, used to exercise the bulk-removal
check with all earlier safety checks passing. -/
def bulkKernels10 : List KernelInfo :=
  (List.range 10).map
    (fun i => ⟨"7.0." ++ toString i ++ "-1-generic",
               "linux-image-7.0." ++ toString i ++ "-1-generic", i == 0, false⟩)

/-- Witness for the amended C3 at a 6-image proposal against a 10-kernel
system. -/
theorem C3_witness :
    (validate_removal_safety
        ["linux-image-a1", "linux-image-a2", "linux-image-a3",
         "linux-image-a4", "linux-image-a5", "linux-image-a6"]
        "9.9.9-9-generic" "8.8.8-8-generic" bulkKernels10).1 = false ∧
    (validate_removal_safety
        ["linux-image-a1", "linux-image-a2", "linux-image-a3",
         "linux-image-a4", "linux-image-a5", "linux-image-a6"]
        "9.9.9-9-generic" "8.8.8-8-generic" bulkKernels10).2 =
      "Safety check warning: Attempting to remove 6 kernels at once. This seems excessive." ∧
    strContains
      (validate_removal_safety
          ["linux-image-a1", "linux-image-a2", "linux-image-a3",
           "linux-image-a4", "linux-image-a5", "linux-image-a6"]
          "9.9.9-9-generic" "8.8.8-8-generic" bulkKernels10).2 "6" ∧
    strContains
      (validate_removal_safety
          ["linux-image-a1", "linux-image-a2", "linux-image-a3",
           "linux-image-a4", "linux-image-a5", "linux-image-a6"]
          "9.9.9-9-generic" "8.8.8-8-generic" bulkKernels10).2 "excessive" := by
  have h := C3_excessive_bulk_removal
    ["linux-image-a1", "linux-image-a2", "linux-image-a3",
     "linux-image-a4", "linux-image-a5", "linux-image-a6"]
    "9.9.9-9-generic" "8.8.8-8-generic" bulkKernels10 (by decide)
  obtain ⟨hfst, hrest⟩ := h
  obtain ⟨hmsg, hcnt, hexc⟩ := hrest (by decide) (by decide) (by decide)
  exact ⟨hfst, hmsg, hcnt, hexc⟩

/-- An append-accumulating fold over a list is the accumulator followed by
the filtered list. -/
lemma foldl_append_filter (p : String → Bool) (l : List String) :
    ∀ acc, l.foldl (fun acc2 h => if p h then acc2 ++ [h] else acc2) acc =
      acc ++ l.filter p := by
  induction l with
  | nil => intro acc; simp
  | cons h t ih =>
    intro acc
    rw [List.foldl_cons, List.filter_cons]
    by_cases hp : p h
    · simp [hp, ih]
    · simp [hp, ih]

/-- Claim C4: the header matcher equals, in order, the input headers
filtered by the spec predicate (non-`-common` tokens obsolete iff not
exactly protected, `-common` tokens obsolete iff their stripped form is
absent from the base-version projection), and on the four Debian headers
against protected 6.12.48+deb13-amd64 it returns exactly the two 6.12.41
entries, in input order. -/
theorem C4_header_matching :
    (∀ (headers kernel_versions : List String),
      match_headers_to_kernels headers kernel_versions =
        headers.filter (headerObsoleteSpec kernel_versions)) ∧
    match_headers_to_kernels
      ["linux-headers-6.12.48+deb13-amd64", "linux-headers-6.12.48+deb13-common",
       "linux-headers-6.12.41+deb13-amd64", "linux-headers-6.12.41+deb13-common"]
      ["6.12.48+deb13-amd64"] =
      ["linux-headers-6.12.41+deb13-amd64", "linux-headers-6.12.41+deb13-common"] := by
  constructor
  · intro headers kernel_versions
    show headers.foldl _ [] = _
    rw [foldl_append_filter
      (fun h => headerObsolete kernel_versions (kernel_versions.map baseProjOne) h) headers []]
    rw [List.nil_append]
    rfl
  · decide

/-- Counterexample to claim C9 as stated: on `"x-_"` the trailing segment
`"_"` consists solely of alphanumeric/underscore characters and does not
begin with a digit and a dot, so the claim predicts the split
`("x", "_")`, but the code returns `("x-_", "")` (Python
`"_".replace('_','').isalnum()` is false on the empty remainder). -/
theorem C9_counterexample :
    extractBaseVersionSpecClaim "x-_" = ("x", "_") ∧
    extract_base_version "x-_" = ("x-_", "") ∧
    extract_base_version "x-_" ≠ extractBaseVersionSpecClaim "x-_" := by
  decide

/-- The code's flavor test — remove underscores, then non-empty and all
alphanumeric — equals: every character alphanumeric or underscore, and at
least one character alphanumeric. -/
lemma pyIsAlnum_filter_underscore (f : List Char) :
    pyIsAlnum (f.filter (fun c => c ≠ '_')) =
      (f.all (fun c => c.isAlphanum || c == '_') && f.any Char.isAlphanum) := by
  rw [Bool.eq_iff_iff]
  simp only [pyIsAlnum, Bool.and_eq_true, List.all_eq_true, List.any_eq_true,
    Bool.not_eq_true', List.isEmpty_eq_false_iff_exists_mem, List.mem_filter,
    Bool.or_eq_true, beq_iff_eq, decide_eq_true_eq]
  constructor
  · rintro ⟨⟨c, hcf, hcu⟩, hall⟩
    refine ⟨fun d hd => ?_, c, hcf, hall c ⟨hcf, by simpa using hcu⟩⟩
    by_cases hdu : d = '_'
    · exact Or.inr hdu
    · exact Or.inl (hall d ⟨hd, by simpa using hdu⟩)
  · rintro ⟨hall, c, hcf, hcal⟩
    have hcu : c ≠ '_' := by
      intro h
      rw [h] at hcal
      exact absurd hcal (by decide)
    refine ⟨⟨c, hcf, by simpa using hcu⟩, fun d hd => ?_⟩
    rcases hall d hd.1 with h | h
    · exact h
    · exfalso
      have := hd.2
      simp [h] at this


/-- Claim C9 (amended): `extract_base_version` splits on the last dash and
returns `(prefix, suffix)` exactly when the trailing segment consists
solely of alphanumeric/underscore characters, CONTAINS AT LEAST ONE
ALPHANUMERIC CHARACTER, and does not begin with a digit followed by a
dot; in every other case, including every string containing no dash, it
returns the whole string paired with the empty flavor. -/
theorem C9_extract_base_version_amended (version : String) :
    extract_base_version version = extractBaseVersionSpecAmended version := by
  unfold extract_base_version extractBaseVersionSpecAmended
  cases h : rsplit1 version.data with
  | none => rfl
  | some pr =>
    obtain ⟨base, flavor⟩ := pr
    dsimp only
    rw [pyIsAlnum_filter_underscore]

end Kernsweep
